import Mathlib

set_option maxRecDepth 100000

/-!
Verification of the display presentation engine of `oled_manager.py`
(class `OLEDManager`), shallowly embedded in Lean 4.

Modelling conventions:
* Python strings are Lean `String`s; where the pixel-measure collaborator
  (`draw.textlength`) acts character by character, text is a `List Char`.
* Wall-clock times driving the scroll animator (`time.time()`) are `Nat`
  milliseconds, so `2.0` seconds is `2000`.  During any run the stored
  `scroll_start_time` is never later than the current tick time, so Nat
  truncated subtraction agrees with Python float subtraction in every
  comparison the code makes.
* Timestamps for motion recency (`datetime`) are `Int` seconds; Python
  `int(x)` truncates toward zero, which is `Int.div`, and Python `//` is
  floor division, which is `Int.fdiv`.
* The text-metrics collaborator `draw.textlength` is a parameter
  `m : List Char → Nat` (pixels).
* `threading.Timer` objects are modelled by integer timer ids: `live` is
  the set of armed, not-yet-fired, not-cancelled timers together with
  their absolute deadlines, `temp_message_thread` is the id held in the
  manager field of the same name, and firing or cancelling removes the id
  from `live`.  Steps (producer calls, timer callbacks) are atomic, which
  is the granularity the claims speak about.
* The device is an ssd1305 of width 128 px (fixed in the constructor).
-/

/-- The snapshot dictionary stored in `self.temporary_message`. -/
structure TempSnapshot where
  mode : String
  message : String
  line1 : String
  line2 : String
deriving DecidableEq

/-- The display-state fields of `OLEDManager` (everything except the timer
thread object, which lives in `TimerSys`). -/
structure OLEDState where
  current_mode : String
  scroll_position : Nat
  scroll_start_time : Option Nat
  scroll_paused : Bool
  current_message : String
  temporary_message : Option TempSnapshot
  temp_duration : Nat
  last_motion_time : Option Int
  motion_active : Bool
  line1 : String
  line2 : String
deriving DecidableEq

/-- The state set up by `OLEDManager.__init__`. -/
def initOLED : OLEDState :=
  { current_mode := "default"
    scroll_position := 0
    scroll_start_time := none
    scroll_paused := true
    current_message := ""
    temporary_message := none
    temp_duration := 0
    last_motion_time := none
    motion_active := false
    line1 := ""
    line2 := "" }

/-- `OLEDManager` state together with the pool of armed one-shot timers.
`live` holds `(id, deadline)` for every armed timer that has neither fired
nor been cancelled; `temp_message_thread` is the id stored in the field of
the same name (it may reference a dead timer); `nextId` generates fresh
ids. -/
structure TimerSys where
  disp : OLEDState
  live : List (Nat × Nat)
  temp_message_thread : Option Nat
  nextId : Nat
deriving DecidableEq

/-- A freshly constructed manager: no timers armed. -/
def initTimerSys : TimerSys :=
  { disp := initOLED, live := [], temp_message_thread := none, nextId := 0 }

/-- `OLEDManager._restore_previous_state`: if a snapshot is stored, write
its four fields back and drop the snapshot; otherwise do nothing. -/
def restore_previous_state (d : OLEDState) : OLEDState :=
  match d.temporary_message with
  | some snap =>
      { d with current_mode := snap.mode
               current_message := snap.message
               line1 := snap.line1
               line2 := snap.line2
               temporary_message := none }
  | none => d

/-- `OLEDManager._cancel_temporary_message`: cancel the tracked timer if it
is still alive (remove it from the armed pool), and clear the snapshot. -/
def cancel_temporary_message (sys : TimerSys) : TimerSys :=
  let live1 :=
    match sys.temp_message_thread with
    | some i => sys.live.filter (fun p => p.1 != i)
    | none => sys.live
  { sys with live := live1
             disp := { sys.disp with temporary_message := none } }

/-- `OLEDManager._set_temporary_message(duration)` called at time `now`:
cancel the previous timer, snapshot the CURRENT four display fields (the
caller has already written the new content into them), then arm a fresh
one-shot timer for `now + duration`. -/
def set_temporary_message (duration now : Nat) (sys : TimerSys) : TimerSys :=
  let sys1 := cancel_temporary_message sys
  let snap : TempSnapshot :=
    { mode := sys1.disp.current_mode
      message := sys1.disp.current_message
      line1 := sys1.disp.line1
      line2 := sys1.disp.line2 }
  { sys1 with
      disp := { sys1.disp with temporary_message := some snap
                               temp_duration := duration }
      live := sys1.live ++ [(sys1.nextId, now + duration)]
      temp_message_thread := some sys1.nextId
      nextId := sys1.nextId + 1 }

/-- `OLEDManager.show_scrolling_text(text, duration)` at time `now`:
switch to scrolling mode, install the text, unconditionally reset the
scroll animator, and when a non-zero duration is given set up the
temporary-message timer.  (`if duration:` is false for `None` and `0`.) -/
def show_scrolling_text (text : String) (duration : Option Nat) (now : Nat)
    (sys : TimerSys) : TimerSys :=
  let d1 := { sys.disp with
                current_mode := "scrolling"
                current_message := text
                scroll_position := 0
                scroll_start_time := none
                scroll_paused := true }
  let sys1 := { sys with disp := d1 }
  match duration with
  | some d => if 0 < d then set_temporary_message d now sys1 else sys1
  | none => sys1

/-- `OLEDManager.show_centered_text(line1, line2, duration)` at time
`now`. -/
def show_centered_text (l1 l2 : String) (duration : Option Nat) (now : Nat)
    (sys : TimerSys) : TimerSys :=
  let d1 := { sys.disp with current_mode := "centered", line1 := l1, line2 := l2 }
  let sys1 := { sys with disp := d1 }
  match duration with
  | some d => if 0 < d then set_temporary_message d now sys1 else sys1
  | none => sys1

/-- A `threading.Timer` callback delivery: timer `tid` fires.  A timer that
was cancelled or has already fired (not in `live`) does nothing; an armed
timer runs `_restore_previous_state` and is spent. -/
def fire_timer (tid : Nat) (sys : TimerSys) : TimerSys :=
  if sys.live.any (fun p => p.1 == tid) then
    { sys with disp := restore_previous_state sys.disp
               live := sys.live.filter (fun p => p.1 != tid) }
  else sys

/-- `OLEDManager.show_status(motion_active, motion_time)`: each field is
written only when the corresponding argument is not `None`.  The method
touches nothing but the two motion fields, so it is modelled on
`OLEDState`. -/
def show_status (motion_active : Option Bool) (motion_time : Option Int)
    (s : OLEDState) : OLEDState :=
  let s1 := match motion_active with
            | some b => { s with motion_active := b }
            | none => s
  match motion_time with
  | some v => { s1 with last_motion_time := some v }
  | none => s1

/-- `OLEDManager._format_motion_time` as a function of the two motion
fields and the current `datetime.now()` (all times in whole seconds).
`minutes = int(delta.total_seconds() / 60)` truncates toward zero
(`Int.tdiv`); `hours = minutes // 60` is floor division (`Int.fdiv`). -/
def format_motion_time (motion_active : Bool) (last_motion_time : Option Int)
    (now : Int) : String :=
  if motion_active then "now"
  else
    match last_motion_time with
    | none => "??"
    | some t =>
        let minutes : Int := (now - t).tdiv 60
        if minutes < 60 then toString minutes ++ "m"
        else toString (minutes.fdiv 60) ++ "h"

/-- The three-character ellipsis appended by `_truncate_text`. -/
def ellipsis : List Char := ['.', '.', '.']

/-- The `while` loop of `OLEDManager._truncate_text`:
`while len(text) > 3 and textlength(text[:-3] + "...") > max_width:
   text = text[:-4]`.
Python `text[:-k]` is `List.take (text.length - k)`.  Terminates because
each iteration removes exactly four characters. -/
def truncate_text_loop (m : List Char → Nat) (max_width : Nat)
    (text : List Char) : List Char :=
  if h : 3 < text.length ∧ max_width < m (text.take (text.length - 3) ++ ellipsis)
  then truncate_text_loop m max_width (text.take (text.length - 4))
  else text
termination_by text.length
decreasing_by
  simp only [List.length_take]
  omega

/-- `OLEDManager._truncate_text(text, max_width)` with the pixel measure
`m` standing for `draw.textlength(-, font)`. -/
def truncate_text (m : List Char → Nat) (max_width : Nat)
    (text : List Char) : List Char :=
  if m text ≤ max_width then text
  else truncate_text_loop m max_width text ++ ellipsis

/-- Fuel-indexed version of the `_truncate_text` loop, used to state (and
compute with) the termination bound: `text.length` iterations always
suffice. -/
def truncate_text_fuel (fuel : Nat) (m : List Char → Nat) (max_width : Nat)
    (text : List Char) : List Char :=
  match fuel with
  | 0 => text
  | fuel + 1 =>
      if 3 < text.length ∧ max_width < m (text.take (text.length - 3) ++ ellipsis)
      then truncate_text_fuel fuel m max_width (text.take (text.length - 4))
      else text

/-- One render tick of `OLEDManager.update_display`, restricted to the
state the method mutates (the scroll animator) plus the horizontal
position at which the body text is drawn (`x_pos`; `none` when no body
text is drawn).  `m` is `draw.textlength`, `now` is `time.time()` in ms,
and the device width is 128.  The Python branch chain is translated
literally; note that `x_pos = self.device.width - self.scroll_position` is
executed unconditionally after the branch chain, overwriting the
`x_pos = self.device.width` assignment of the first branch. -/
def update_display (m : List Char → Nat) (now : Nat) (s : OLEDState) :
    OLEDState × Option Int :=
  if s.current_mode = "scrolling" ∧ s.current_message ≠ "" then
    let w := m s.current_message.data
    if 128 < w then
      let start := s.scroll_start_time.getD now
      let s0 := { s with scroll_start_time := some start }
      if now - start < 2000 then
        (s0, some (128 - (s0.scroll_position : Int)))
      else if s0.scroll_paused then
        let s1 := { s0 with scroll_paused := false, scroll_position := 0 }
        (s1, some (128 - (s1.scroll_position : Int)))
      else if w ≤ s0.scroll_position then
        let s1 := { s0 with scroll_paused := true, scroll_start_time := some now }
        (s1, some (128 - (s1.scroll_position : Int)))
      else
        let s1 := { s0 with scroll_position := s0.scroll_position + 1 }
        (s1, some (128 - (s1.scroll_position : Int)))
    else
      (s, some (((128 - w) / 2 : Nat) : Int))
  else (s, none)

/-- The body text drawn by one tick of `update_display` (below the status
bar): two truncated centered lines in centered mode, the marquee text in
scrolling mode, nothing otherwise.  Lines that are empty strings are not
drawn (`if self.line1:`). -/
def rendered_lines (m : List Char → Nat) (s : OLEDState) : List String :=
  if s.current_mode = "centered" then
    (if s.line1 ≠ "" then [String.mk (truncate_text m 128 s.line1.data)] else []) ++
    (if s.line2 ≠ "" then [String.mk (truncate_text m 128 s.line2.data)] else [])
  else if s.current_mode = "scrolling" ∧ s.current_message ≠ "" then
    [s.current_message]
  else []

/-- Metrics stub for the marquee runs: every string measures 130 px, which
is wider than the 128 px display. -/
def mW : List Char → Nat := fun _ => 130

/-- Display state right after `show_scrolling_text` installed a marquee
text on a fresh manager (baseline, no duration). -/
def scroll_demo : OLEDState :=
  (show_scrolling_text "0123456789" none 0 initTimerSys).disp

/-- The render loop of `main.py` on the marquee demo state: one call of
`update_display` every 100 ms, tick `n` happening at time `100 * n` ms.
`ticks n` is the state after the first `n` ticks. -/
def ticks : Nat → OLEDState
  | 0 => scroll_demo
  | n + 1 => (update_display mW (100 * n) (ticks n)).1

/-- The `x_pos` at which tick `n` draws the marquee. -/
def tick_draw (n : Nat) : Option Int :=
  (update_display mW (100 * n) (ticks n)).2

/-- Metrics stub of a 6 px monospace font (the PIL fallback font):
`draw.textlength` is six pixels per character. -/
def measure6 : List Char → Nat := fun l => 6 * l.length

/-- A manager state in the middle of a marquee: scrolling "hello",
42 px into the scroll phase. -/
def c5_state : TimerSys :=
  { disp := { initOLED with
                current_mode := "scrolling"
                current_message := "hello"
                scroll_position := 42
                scroll_start_time := some 5000
                scroll_paused := false }
    live := []
    temp_message_thread := none
    nextId := 0 }

/-! ## Helper lemmas (shared) -/

/-- `Int.tdiv` on two natural numbers is natural division. -/
theorem tdiv_ofNat (m n : Nat) :
    (Int.ofNat m).tdiv (Int.ofNat n) = Int.ofNat (m / n) := rfl

/-- `Int.fdiv` on two natural numbers is natural division. -/
theorem fdiv_ofNat (m n : Nat) :
    (Int.ofNat m).fdiv (Int.ofNat n) = Int.ofNat (m / n) := by
  cases m with
  | zero => simp [Int.fdiv]
  | succ m => rfl

/-- The `_truncate_text` loop needs at most `text.length` iterations:
running the fuel-indexed loop with that much fuel computes the
well-founded loop. -/
theorem truncate_loop_eq_fuel (m : List Char → Nat) (w : Nat) :
    ∀ (n : Nat) (t : List Char), t.length ≤ n →
      truncate_text_fuel n m w t = truncate_text_loop m w t := by
  intro n
  induction n with
  | zero =>
      intro t ht
      rw [truncate_text_loop.eq_def]
      rw [dif_neg (fun h3 => absurd h3.1 (by omega))]
      rfl
  | succ n ih =>
      intro t ht
      rw [truncate_text_loop.eq_def]
      by_cases hg : 3 < t.length ∧ w < m (t.take (t.length - 3) ++ ellipsis)
      · rw [dif_pos hg]
        rw [show truncate_text_fuel (n + 1) m w t
              = truncate_text_fuel n m w (t.take (t.length - 4)) by
            simp [truncate_text_fuel, hg]]
        exact ih (t.take (t.length - 4)) (by simp [List.length_take]; omega)
      · rw [dif_neg hg]
        simp [truncate_text_fuel, hg]

/-! ## Claims -/

/-- Claim C1 (code bug): the claim says `push_overlay(content, duration)`
captures `(mode, primary_text)` immediately BEFORE the overlay is
installed and that expiry restores exactly that pre-push state, so that
with baseline "Ready", after `push_overlay("Now playing: X", 5.0s)` and
expiry the display renders "Ready" again.  In the source,
`show_scrolling_text` writes the overlay content into
`current_mode`/`current_message` FIRST and only then calls
`_set_temporary_message`, which snapshots the already-mutated state; the
expiry callback therefore re-installs the overlay content itself.  This
theorem evaluates the code at the failing input: the stored snapshot is
the overlay state, and after the expiry timer fires the engine still
renders "Now playing: X", not "Ready". -/
theorem C1_overlay_restore_code_bug :
    (show_scrolling_text "Now playing: X" (some 5000) 500
        (show_scrolling_text "Ready" none 0 initTimerSys)).disp.temporary_message =
      some { mode := "scrolling", message := "Now playing: X", line1 := "", line2 := "" } ∧
    (fire_timer 0 (show_scrolling_text "Now playing: X" (some 5000) 500
        (show_scrolling_text "Ready" none 0 initTimerSys))).disp.current_message =
      "Now playing: X" ∧
    rendered_lines mW (fire_timer 0 (show_scrolling_text "Now playing: X" (some 5000) 500
        (show_scrolling_text "Ready" none 0 initTimerSys))).disp = ["Now playing: X"] ∧
    ("Now playing: X" : String) ≠ "Ready" := by
  refine ⟨by decide, by decide, by decide, by decide⟩

/-- Claim C8 (confirmed): `_restore_previous_state` with no stored
temporary message leaves the whole presentation state unchanged, and
running it twice has the same effect as running it once. -/
theorem C8_restore_idempotent (s : OLEDState) :
    (s.temporary_message = none → restore_previous_state s = s) ∧
    restore_previous_state (restore_previous_state s) = restore_previous_state s := by
  constructor
  · intro h
    simp [restore_previous_state, h]
  · cases h : s.temporary_message with
    | none => simp [restore_previous_state, h]
    | some snap => simp [restore_previous_state, h]

/-- Claim C8 witness: the restore operation is a no-op on the freshly
constructed state, which stores no temporary message. -/
theorem C8_restore_witness : restore_previous_state initOLED = initOLED :=
  (C8_restore_idempotent initOLED).1 rfl

/-- Claim C9 (confirmed): `show_status` writes only the two motion fields,
each only when its argument is not `None`; mode, texts, scroll cursor and
the stored temporary message are untouched in all cases. -/
theorem C9_show_status_frame (ma : Option Bool) (mt : Option Int) (s : OLEDState) :
    (show_status ma mt s).current_mode = s.current_mode ∧
    (show_status ma mt s).current_message = s.current_message ∧
    (show_status ma mt s).line1 = s.line1 ∧
    (show_status ma mt s).line2 = s.line2 ∧
    (show_status ma mt s).scroll_position = s.scroll_position ∧
    (show_status ma mt s).scroll_start_time = s.scroll_start_time ∧
    (show_status ma mt s).scroll_paused = s.scroll_paused ∧
    (show_status ma mt s).temporary_message = s.temporary_message ∧
    (show_status ma mt s).temp_duration = s.temp_duration ∧
    (show_status ma mt s).motion_active = ma.getD s.motion_active ∧
    (show_status ma mt s).last_motion_time =
      (match mt with | some v => some v | none => s.last_motion_time) := by
  cases ma <;> cases mt <;> simp [show_status]

/-- Claim C5 counterexample: the claim says calling the scrolling entry
point again with the SAME text does not reset the animator.  On a state
42 px into scrolling "hello", calling `show_scrolling_text "hello"` again
resets the offset to 0 and the phase to the initial delay. -/
theorem C5_reenter_scroll_counterexample :
    c5_state.disp.current_mode = "scrolling" ∧
    c5_state.disp.current_message = "hello" ∧
    c5_state.disp.scroll_position = 42 ∧
    (show_scrolling_text "hello" none 6000 c5_state).disp.scroll_position = 0 ∧
    (show_scrolling_text "hello" none 6000 c5_state).disp.scroll_start_time = none ∧
    (show_scrolling_text "hello" none 6000 c5_state).disp.scroll_paused = true := by
  refine ⟨by decide, by decide, by decide, by decide, by decide, by decide⟩

/-- Claim C5 (corrected): `show_scrolling_text` ALWAYS resets the scroll
animator (offset 0, no phase start, paused), whether or not the text
changed; animator state persists only across render ticks, and a render
tick never changes the scrolling text or the mode. -/
theorem C5_reenter_scroll_amended (text : String) (duration : Option Nat)
    (now : Nat) (sys : TimerSys) (m : List Char → Nat) (t2 : Nat) (s : OLEDState) :
    ((show_scrolling_text text duration now sys).disp.scroll_position = 0 ∧
     (show_scrolling_text text duration now sys).disp.scroll_start_time = none ∧
     (show_scrolling_text text duration now sys).disp.scroll_paused = true ∧
     (show_scrolling_text text duration now sys).disp.current_message = text) ∧
    ((update_display m t2 s).1.current_message = s.current_message ∧
     (update_display m t2 s).1.current_mode = s.current_mode) := by
  constructor
  · cases duration with
    | none => simp [show_scrolling_text]
    | some d =>
        by_cases hd : 0 < d <;>
          simp [show_scrolling_text, set_temporary_message,
                cancel_temporary_message, hd]
  · simp only [update_display]
    split_ifs <;> simp

/-- Helper: `Int.tdiv` by 60 of a cast natural is natural division. -/
theorem tdiv60_cast (m : Nat) : (m : Int).tdiv 60 = ((m / 60 : Nat) : Int) := rfl

/-- Helper: `Int.fdiv` by 60 of a cast natural is natural division. -/
theorem fdiv60_cast (m : Nat) : (m : Int).fdiv 60 = ((m / 60 : Nat) : Int) := by
  cases m <;> rfl

/-- Helper: `toString` of a cast natural agrees with natural `toString`. -/
theorem toString_natCast (k : Nat) : toString ((k : Nat) : Int) = toString k := rfl

/-- Helper: `_format_motion_time` with `motion_active = False` and a
recorded motion time reduces to the minutes/hours branch. -/
theorem format_motion_time_inactive (t now : Int) :
    format_motion_time false (some t) now
      = (if (now - t).tdiv 60 < 60 then toString ((now - t).tdiv 60) ++ "m"
         else toString (((now - t).tdiv 60).fdiv 60) ++ "h") := rfl

/-- Claim C4 counterexample: the claim says elapsed times of an hour or
more are shown as hours AND minutes, `"<h>h <m>m"`.  At 123 elapsed
minutes the code returns `"2h"`, not `"2h 3m"`: the remaining minutes are
never printed (`return f"{hours}h"`). -/
theorem C4_motion_format_counterexample :
    format_motion_time false (some 0) 7380 = "2h" ∧ ("2h" : String) ≠ "2h 3m" := by
  refine ⟨by decide, by decide⟩

/-- Claim C4 (corrected): `"now"` while motion is active; `"??"` when no
motion was ever recorded; for elapsed time `e` seconds below one hour the
truncated minutes as `"<n>m"`; for one hour or more ONLY the hours,
`"<h>h"` with `h = minutes // 60 = e / 3600` — the minutes remainder of
the claim is not printed. -/
theorem C4_motion_format_amended (lt : Option Int) (now t : Int) (e : Nat) :
    format_motion_time true lt now = "now" ∧
    format_motion_time false none now = "??" ∧
    (now - t = (e : Int) → e < 3600 →
      format_motion_time false (some t) now = toString (e / 60) ++ "m") ∧
    (now - t = (e : Int) → 3600 ≤ e →
      format_motion_time false (some t) now = toString (e / 3600) ++ "h") := by
  refine ⟨rfl, rfl, ?_, ?_⟩
  · intro he h1
    rw [format_motion_time_inactive, he, tdiv60_cast]
    rw [if_pos (by exact_mod_cast (Nat.div_lt_iff_lt_mul (by norm_num)).mpr (by omega))]
    rw [toString_natCast]
  · intro he h1
    rw [format_motion_time_inactive, he, tdiv60_cast]
    rw [if_neg (by
      have h2 : 60 ≤ e / 60 := (Nat.le_div_iff_mul_le (by norm_num)).mpr (by omega)
      have h3 : (60 : Int) ≤ ((e / 60 : Nat) : Int) := by exact_mod_cast h2
      omega)]
    rw [fdiv60_cast, toString_natCast, Nat.div_div_eq_div_mul]

/-- Claim C4 witness: at 7380 elapsed seconds the hours branch applies and
prints `7380 / 3600 = 2` hours. -/
theorem C4_motion_format_witness :
    format_motion_time false (some 0) 7380 = toString ((7380 : Nat) / 3600) ++ "h" :=
  (C4_motion_format_amended none 7380 0 7380).2.2.2 (by norm_num) (by norm_num)

/-- Claim C7 counterexample: the claim says negative elapsed time is
clamped to zero so the display never shows a negative interval.  With
`last_motion_time` one hour in the future the code displays `"-60m"`. -/
theorem C7_negative_elapsed_counterexample :
    format_motion_time false (some 3600) 0 = "-60m" ∧ ("-60m" : String) ≠ "0m" := by
  refine ⟨by decide, by decide⟩

/-- Claim C7 (corrected): negative elapsed time does not crash or
underflow (the arithmetic is over signed integers), but it is NOT clamped
to zero: the truncated minutes value is non-positive and is rendered
directly through the minutes branch (e.g. `"-60m"`). -/
theorem C7_negative_elapsed_amended (t now : Int) (h : now - t < 0) :
    format_motion_time false (some t) now = toString ((now - t).tdiv 60) ++ "m" ∧
    (now - t).tdiv 60 ≤ 0 := by
  have hle : (now - t).tdiv 60 ≤ 0 := by
    have h1 : (0 : Int) ≤ -(now - t) := by omega
    have h2 : (0 : Int) ≤ (-(now - t)).tdiv 60 := Int.tdiv_nonneg h1 (by norm_num)
    have h3 : (-(now - t)).tdiv 60 = -((now - t).tdiv 60) := Int.neg_tdiv _ _
    omega
  exact ⟨by rw [format_motion_time_inactive, if_pos (by omega)], hle⟩

/-- Claim C7 witness: with the last motion recorded 60 seconds in the
future, the code renders the (negative) truncated minutes. -/
theorem C7_negative_elapsed_witness :
    format_motion_time false (some 60) 0 = toString (((0 : Int) - 60).tdiv 60) ++ "m" ∧
    ((0 : Int) - 60).tdiv 60 ≤ 0 :=
  C7_negative_elapsed_amended 60 0 (by decide)

/-- Claim C3 (code bug): the claim (and the docstring of `_truncate_text`)
says the truncated result, ellipsis included, measures at most the display
width.  The loop guard measures `text[:-3] + "..."` but the function
returns `text + "..."` — three characters more than what was measured.
With the 6 px monospace fallback font and the 128 px display, 25 copies of
the character A (150 px, wider than the display) truncate to a 24
character string measuring 144 px, which still exceeds the display width.
This theorem evaluates the code at that failing input. -/
theorem C3_truncate_code_bug :
    128 < measure6 (List.replicate 25 'A') ∧
    measure6 (truncate_text measure6 128 (List.replicate 25 'A')) = 144 ∧
    128 < measure6 (truncate_text measure6 128 (List.replicate 25 'A')) := by
  have hloop : truncate_text_loop measure6 128 (List.replicate 25 'A')
      = truncate_text_fuel 25 measure6 128 (List.replicate 25 'A') :=
    (truncate_loop_eq_fuel measure6 128 25 (List.replicate 25 'A') (by decide)).symm
  have hval : truncate_text measure6 128 (List.replicate 25 'A')
      = truncate_text_loop measure6 128 (List.replicate 25 'A') ++ ellipsis := by
    unfold truncate_text
    rw [if_neg (by decide)]
  refine ⟨by decide, ?_, ?_⟩
  · rw [hval, hloop]; decide
  · rw [hval, hloop]; decide

/-- Claim C10 (confirmed): the `_truncate_text` loop terminates for every
input and measure — `text.length` iterations of fuel always compute the
loop, because while the length exceeds three each iteration removes
exactly four characters; and when the measured width of the input already
fits, the input is returned unchanged. -/
theorem C10_truncate_terminates (m : List Char → Nat) (w : Nat) (t : List Char) :
    truncate_text_fuel t.length m w t = truncate_text_loop m w t ∧
    (m t ≤ w → truncate_text m w t = t) ∧
    (3 < t.length → w < m (t.take (t.length - 3) ++ ellipsis) →
      truncate_text_loop m w t = truncate_text_loop m w (t.take (t.length - 4)) ∧
      (t.take (t.length - 4)).length + 4 = t.length) := by
  refine ⟨truncate_loop_eq_fuel m w t.length t le_rfl, ?_, ?_⟩
  · intro h
    unfold truncate_text
    rw [if_pos h]
  · intro h1 h2
    constructor
    · conv_lhs => rw [truncate_text_loop.eq_def]
      rw [dif_pos ⟨h1, h2⟩]
    · simp only [List.length_take]
      omega

/-- Claim C10 witness: a two-character text that fits within 100 px is
returned unchanged, via the fits-unchanged clause of the theorem. -/
theorem C10_truncate_witness :
    truncate_text (fun l => l.length) 100 ['h', 'i'] = ['h', 'i'] :=
  (C10_truncate_terminates (fun l => l.length) 100 ['h', 'i']).2.1 (by decide)

/-- Claim C2 counterexample: the claim says the offset resets to 0 exactly
at the start of each InitialDelay phase, with the cursor pinned at the
right edge (x = 128, offset 0) for 2.0 s before motion resumes on EVERY
cycle, and that one full cycle lasts 4.0 s + width/10 s.  In the marquee
run `ticks` (130 px text, 128 px display, ticks every 100 ms), the offset
resets to 0 during tick 171 (so `ticks 172` has offset 0, coming from
offset 130), and the very next tick already draws at x = 127: motion
resumes after 0.1 s, with no 2.0 s right-edge delay on the second cycle
(and hence the cycle is 2.0 s shorter than claimed). -/
theorem C2_marquee_counterexample :
    ¬ (∀ n : Nat,
        ((ticks (n + 1)).scroll_position = 0 ∧ (ticks n).scroll_position ≠ 0) →
        ∀ k : Nat, k ≤ 20 → tick_draw (n + 1 + k) = some 128) := by
  intro h
  have h2 := h 171 (by refine ⟨by decide, by decide⟩) 1 (by decide)
  exact absurd h2 (by decide)

/-- Claim C2 (corrected): during the Scrolling phase the offset is
non-decreasing (each tick keeps it or increments it by one), and the
offset resets to 0 from a non-zero value only when the 2.0 s pause of a
paused phase has elapsed.  But the 2.0 s right-edge initial delay occurs
only before the first cycle: in the `ticks` run (130 px text), the first
pause ends at t = 2.0 s (tick 21, offset 0, unpaused), the offset reaches
130 at tick 151, the end pause holds the offset at its final value (the
marquee is drawn at x = 128 - 130 = -2, not at the right edge), the
offset resets at tick 172 (t = 17.1 s, a first cycle of about
2.0 s + 13.0 s + 2.0 s), and the next reset is at tick 323, a steady-state
cycle of 15.1 s = 2.1 s + width/10 s — not the claimed 4.0 s + width/10 s,
because the end pause of one cycle is also the only delay before the
next. -/
theorem C2_marquee_amended (m : List Char → Nat) (now : Nat) (s : OLEDState) :
    (s.scroll_paused = false →
      (update_display m now s).1.scroll_position = s.scroll_position ∨
      (update_display m now s).1.scroll_position = s.scroll_position + 1) ∧
    ((update_display m now s).1.scroll_position = 0 → s.scroll_position ≠ 0 →
      s.scroll_paused = true ∧
      ∃ t0, s.scroll_start_time = some t0 ∧ 2000 ≤ now - t0) ∧
    ((ticks 21).scroll_position = 0 ∧ (ticks 21).scroll_paused = false) ∧
    ((ticks 151).scroll_position = 130 ∧ (ticks 152).scroll_paused = true ∧
     tick_draw 160 = some (-2) ∧ (ticks 172).scroll_position = 0 ∧
     (ticks 322).scroll_position = 130 ∧ (ticks 323).scroll_position = 0) := by
  refine ⟨?_, ?_, ⟨by decide, by decide⟩,
    ⟨by decide, by decide, by decide, by decide, by decide, by decide⟩⟩
  · intro hp
    simp only [update_display]
    split_ifs <;> simp_all
  · simp only [update_display]
    split_ifs with h1 h2 h3 h4 h5 <;> intro h0 hne <;> simp_all
    cases hst : s.scroll_start_time with
    | none =>
        rw [hst] at h3
        simp only [Option.getD_none, Nat.sub_self] at h3
        omega
    | some t0 =>
        rw [hst] at h3
        simp only [Option.getD_some] at h3
        exact ⟨t0, rfl, h3⟩

/-- Claim C2 witness: at tick 21 of the marquee run (unpaused, offset 0)
the next tick keeps the offset or advances it by one pixel. -/
theorem C2_marquee_witness :
    (update_display mW 2100 (ticks 21)).1.scroll_position = (ticks 21).scroll_position ∨
    (update_display mW 2100 (ticks 21)).1.scroll_position = (ticks 21).scroll_position + 1 :=
  (C2_marquee_amended mW 2100 (ticks 21)).1 (by decide)

/-- Helper: after the cancel filter has removed every entry with id `n0`
and a fresh timer `n0 + 1` was appended, no armed timer carries id `n0`. -/
theorem any_stale_eq_false (L : List (Nat × Nat)) (n0 a : Nat) :
    ((List.filter (fun p => p.1 != n0) L ++ [(n0 + 1, a)]).any fun p => p.1 == n0)
      = false := by
  rw [List.any_eq_false]
  intro x hx
  rcases List.mem_append.mp hx with h | h
  · have h2 := (List.mem_filter.mp h).2
    simp only [bne_iff_ne, ne_eq] at h2
    simp [h2]
  · simp only [List.mem_singleton] at h
    subst h
    simp

/-- Helper: membership form of `any_stale_eq_false`. -/
theorem stale_not_mem (L : List (Nat × Nat)) (n0 a dl : Nat) :
    (n0, dl) ∉ List.filter (fun p => p.1 != n0) L ++ [(n0 + 1, a)] := by
  intro h
  rcases List.mem_append.mp h with h | h
  · have h2 := (List.mem_filter.mp h).2
    simp at h2
  · simp only [List.mem_singleton, Prod.mk.injEq] at h
    omega

/-- Claim C6 (confirmed): if `push_overlay` (here `show_scrolling_text`
with a non-zero duration) is invoked a second time before the first
overlay expired, the second push cancels the first timer while arming its
own, so delivering the first timer event at ANY later time leaves the
state completely unchanged; the display shows the second content and only
the second deadline is armed.  (Steps are atomic: `threading.Timer.cancel`
on a timer that has not started prevents it from ever firing.) -/
theorem C6_stale_timer_confirmed (sys : TimerSys)
    (c1 c2 : String) (d1 d2 t1 t2 : Nat) (hd1 : 0 < d1) (hd2 : 0 < d2) :
    fire_timer sys.nextId
        (show_scrolling_text c2 (some d2) t2 (show_scrolling_text c1 (some d1) t1 sys)) =
      show_scrolling_text c2 (some d2) t2 (show_scrolling_text c1 (some d1) t1 sys) ∧
    (show_scrolling_text c2 (some d2) t2
        (show_scrolling_text c1 (some d1) t1 sys)).disp.current_message = c2 ∧
    (sys.nextId + 1, t2 + d2) ∈
      (show_scrolling_text c2 (some d2) t2 (show_scrolling_text c1 (some d1) t1 sys)).live ∧
    ∀ dl, (sys.nextId, dl) ∉
      (show_scrolling_text c2 (some d2) t2 (show_scrolling_text c1 (some d1) t1 sys)).live := by
  obtain ⟨d0, L0, tmt0, n0⟩ := sys
  cases tmt0 <;>
  · simp only [show_scrolling_text, set_temporary_message, cancel_temporary_message,
      if_pos hd1, if_pos hd2, fire_timer]
    refine ⟨?_, by simp, by simp, fun dl => stale_not_mem _ _ _ _⟩
    rw [if_neg (by simp [any_stale_eq_false])]

/-- Claim C6 witness: concrete double push on a fresh manager; delivering
the superseded first timer (id 0) afterwards changes nothing. -/
theorem C6_stale_timer_witness :
    fire_timer 0 (show_scrolling_text "B" (some 7000) 1000
        (show_scrolling_text "A" (some 5000) 0 initTimerSys)) =
      show_scrolling_text "B" (some 7000) 1000
        (show_scrolling_text "A" (some 5000) 0 initTimerSys) :=
  (C6_stale_timer_confirmed initTimerSys "A" "B" 5000 7000 0 1000
    (by decide) (by decide)).1
